import Mathlib

/-!
# Shallow embedding of cp-file (`src/index.js`)

The program copies one file from a source path to a destination path.  It has
an asynchronous engine (`cpFileAsync`), an asynchronous entry point (`cpFile`,
`module.exports`) and a synchronous entry point (`module.exports.sync`).

The underlying filesystem primitives (`fs.lstat`, `fs.copyFileSync`,
`fs.createReadStream`, `fs.makeDir`, write streams, `fs.utimes`, `fs.chmod`,
`readlinkSync`, …) are external collaborators; their outcomes for one call of
the engine are collected in a "world" record (`AsyncWorld`, `SyncWorld`), and
each embedded function returns the ordered list of filesystem effects it
performed together with its JavaScript-level result (normal return, or a
thrown error / rejected promise as `Except.error`).

Machine-level conventions: a JS falsy path argument is modelled as `none` or
`some ""`; a raised low-level error is an `FsError` carrying its `code`
string; the wrapper class `CpFileError` is modelled below.
-/

namespace CpFile

/-- Metadata snapshot returned by a link-aware stat (`fs.lstat` /
`fs.lstatSync`). -/
structure Stat where
  isDirectory : Bool
  isSymbolicLink : Bool
  size : Nat
  mode : Nat
  atime : Int
  mtime : Int
deriving Repr, DecidableEq

/-- A low-level filesystem error, carrying the machine-readable `code`
(e.g. "EEXIST") and a human-readable `message`. -/
structure FsError where
  code : String
  message : String
deriving Repr, DecidableEq

/-- The wrapper error type.  `message` is the wrapper's own message; `code`,
`errno` and `source` are the fields observable on the error object (either
inherited from the wrapped original or set by `Object.assign` in
`checkSourceIsFile`); `original` is the retained low-level error. -/
structure CpFileError where
  message : String
  code : Option String
  errno : Option Int
  source : Option String
  original : Option FsError
deriving Repr, DecidableEq

/-- Modelled from the spec: the Error Wrapper class (`cp-file-error.js`) is
required by `src/index.js` but its file is not under `src/`.  Per §4.1 it
(a) stringifies to the supplied message, (b) exposes the originating error's
machine-readable code, and (c) retains a reference to the originating
error. -/
def CpFileError.wrap (message : String) (original : FsError) : CpFileError :=
  { message := message
    code := some original.code
    errno := none
    source := none
    original := some original }

/-- Modelled from the spec: `new CpFileError(message)` with no originating
error (used for the missing-argument configuration error). -/
def CpFileError.plain (message : String) : CpFileError :=
  { message := message, code := none, errno := none, source := none, original := none }

/-- A thrown JavaScript error: either a raw filesystem error propagated
unwrapped, or a `CpFileError`. -/
inductive JsError where
  | fsError (e : FsError)
  | cpError (e : CpFileError)
deriving Repr, DecidableEq

/-- One observable filesystem action of a run, in program order.
`copyFile src dst excl result` is one `fs.copyFileSync` attempt (`excl` true
iff `COPYFILE_EXCL` was passed, `result` its outcome); `openWrite dst excl`
is `fs.createWriteStream` (`excl` true iff flag `wx`); `writeEnd` is the
`writeStream.end()` issued by the read-error handler; `writeSettle` is the
settling of `pEvent(writeStream, 'close')`; `relstat` is the second,
metadata-step `fs.lstat`. -/
inductive Effect where
  | lstat (p : String)
  | relstat (p : String)
  | readlink (p : String)
  | makeDir (p : String)
  | openRead (p : String)
  | openWrite (dst : String) (excl : Bool)
  | writeEnd
  | writeSettle
  | copyFile (src dst : String) (excl : Bool) (result : Option FsError)
  | utimes (dst : String) (atime mtime : Int)
  | chmod (dst : String) (mode : Nat)
deriving Repr, DecidableEq

/-- Model of node's `path.dirname`: the text before the final "/" separator
("." when there is none).  No claim depends on its value; it only marks which
path `makeDir` receives. -/
def dirname (p : String) : String :=
  let parts := p.splitOn "/"
  if parts.length ≤ 1 then "." else String.intercalate "/" parts.dropLast

/-- Resolved copy options (`normalizeOptions` output). -/
structure CpOptions where
  overwrite : Bool
  followSymlinks : Bool
deriving Repr, DecidableEq

/-- Caller-supplied options object: a field is `none` when the caller did not
supply it (so the JS object spread leaves the default in place). -/
structure CpOptionsArg where
  overwrite : Option Bool
  followSymlinks : Option Bool
deriving Repr, DecidableEq

/-- `normalizeOptions`: defaults `overwrite: true`, `followSymlinks: true`,
overridden by any explicitly supplied value, including `false`. -/
def normalizeOptions (a : Option CpOptionsArg) : CpOptions :=
  match a with
  | none => { overwrite := true, followSymlinks := true }
  | some a =>
      { overwrite := a.overwrite.getD true
        followSymlinks := a.followSymlinks.getD true }

/-- Outcomes of the external filesystem/stream collaborators for one run of
the asynchronous engine.  `none` means the operation succeeds; `some e` means
it fails with `e`.  `readEventError` is an `error` event on the read stream
while streaming; `writeCloseError` is the failure of the write stream
(whatever its origin, including `wx` exclusive-create refusal), surfaced by
the rejection of `pEvent(writeStream, 'close')`. -/
structure AsyncWorld where
  lstatResult : Except FsError Stat
  copyFileResult : Option FsError
  createReadStreamResult : Option FsError
  makeDirResult : Option FsError
  readEventError : Option FsError
  writeCloseError : Option FsError
  relstatResult : Except FsError Stat
  utimesResult : Option FsError
  chmodResult : Option FsError
deriving Repr

/-- The `if (shouldUpdateStats)` block of `cpFileAsync`: re-stat the source,
then `Promise.all` of `fs.utimes(destination, atime, mtime)` and
`fs.chmod(destination, mode)` — both are started, and the combined promise
rejects if either rejects. -/
def preserveStats (source destination : String) (w : AsyncWorld) (t : List Effect) :
    List Effect × Except JsError Unit :=
  match w.relstatResult with
  | .error e => (t ++ [Effect.relstat source], .error (.fsError e))
  | .ok stats =>
      let t2 := t ++ [Effect.relstat source,
        Effect.utimes destination stats.atime stats.mtime,
        Effect.chmod destination stats.mode]
      match w.utimesResult with
      | some e => (t2, .error (.fsError e))
      | none =>
          match w.chmodResult with
          | some e => (t2, .error (.fsError e))
          | none => (t2, .ok ())

/-- The asynchronous copy engine `cpFileAsync` of `src/index.js`, lines
20–76, as a function of the collaborator outcomes.  Faithful points: in the
symlink-preserving branch the `catch` rethrows (wrapped) only when
`!options.overwrite && error.code === 'EEXIST'` and falls through —
absorbing the error — for every other failure; in the streaming branch the
read stream is opened and awaited before `fs.makeDir`, a read error ends the
write stream and is recorded, the write settling is awaited, a write failure
is wrapped and thrown with priority over the recorded read error, and the
metadata step runs only when neither occurred.  (Progress-emitter field
assignments are pure notifications and perform no filesystem action.) -/
def cpFileAsync (source destination : String) (o : CpOptions) (w : AsyncWorld) :
    List Effect × Except JsError Unit :=
  match w.lstatResult with
  | .error e => ([Effect.lstat source], .error (.fsError e))
  | .ok stat =>
      if stat.isSymbolicLink && !o.followSymlinks then
        let t := [Effect.lstat source,
          Effect.copyFile source destination (!o.overwrite) w.copyFileResult]
        match w.copyFileResult with
        | some e =>
            if !o.overwrite && e.code == "EEXIST" then
              (t, .error (.cpError (CpFileError.wrap
                ("Cannot write to `" ++ destination ++ "`: " ++ e.message) e)))
            else
              preserveStats source destination w t
        | none => preserveStats source destination w t
      else
        match w.createReadStreamResult with
        | some e =>
            ([Effect.lstat source, Effect.openRead source], .error (.fsError e))
        | none =>
            match w.makeDirResult with
            | some e =>
                ([Effect.lstat source, Effect.openRead source,
                  Effect.makeDir (dirname destination)], .error (.fsError e))
            | none =>
                let endEffects : List Effect :=
                  match w.readEventError with
                  | some _ => [Effect.writeEnd]
                  | none => []
                let t := [Effect.lstat source, Effect.openRead source,
                  Effect.makeDir (dirname destination),
                  Effect.openWrite destination (!o.overwrite)] ++
                  endEffects ++ [Effect.writeSettle]
                match w.writeCloseError with
                | some e =>
                    (t, .error (.cpError (CpFileError.wrap
                      ("Cannot write to `" ++ destination ++ "`: " ++ e.message) e)))
                | none =>
                    match w.readEventError with
                    | some e =>
                        (t, .error (.cpError (CpFileError.wrap
                          ("Cannot read from `" ++ source ++ "`: " ++ e.message) e)))
                    | none => preserveStats source destination w t

/-- A JS falsy path argument: absent, or the empty string. -/
def isFalsy : Option String → Bool
  | none => true
  | some s => s.isEmpty

/-- What the asynchronous entry point gives back to the caller: a pending
result (promise) that later settles with the listed effects and outcome, or a
synchronously thrown error.  (`cpFile`'s body contains no `throw`; the
constructor `threw` exists so that "rejects rather than throws" is a
statement, not a typing accident.) -/
inductive AsyncEntryResult where
  | promise (result : List Effect × Except JsError Unit)
  | threw (e : JsError)
deriving Repr

/-- The asynchronous entry point `cpFile` of `src/index.js`, lines 78–94:
missing/falsy paths yield `Promise.reject(new CpFileError(...))` — returned,
not thrown, and before any filesystem access — otherwise options are
normalized and the engine is invoked.  (The progress-emitter construction and
the `promise.on` augmentation perform no filesystem action and do not affect
settlement.) -/
def cpFile (sourcePath destinationPath : Option String) (options : Option CpOptionsArg)
    (w : AsyncWorld) : AsyncEntryResult :=
  if isFalsy sourcePath || isFalsy destinationPath then
    .promise ([], .error (.cpError (CpFileError.plain "`source` and `destination` required")))
  else
    .promise (cpFileAsync (sourcePath.getD "") (destinationPath.getD "")
      (normalizeOptions options) w)

/-- `checkSourceIsFile`'s thrown error: `Object.assign(new CpFileError(msg),
{errno: -21, code: 'EISDIR', source})`. -/
def eisdirError (source : String) : CpFileError :=
  { message := "EISDIR: illegal operation on a directory ’" ++ source ++ "’"
    code := some "EISDIR"
    errno := some (-21)
    source := some source
    original := none }

/-- Outcomes of the filesystem collaborators for one run of the synchronous
path. -/
structure SyncWorld where
  lstatResult : Except FsError Stat
  readlinkResult : Except FsError String
  makeDirResult : Option FsError
  copyFileResult : Option FsError
  utimesResult : Option FsError
deriving Repr

/-- The synchronous entry point `module.exports.sync` of `src/index.js`,
lines 108–137 (with `checkSourceIsFile`, lines 98–106): validate the paths,
normalize options, link-aware stat, reject directories with the EISDIR
error, resolve the link target via `readlinkSync` when the source is a
symlink and `followSymlinks` is true, create the destination's parent
directory, attempt the byte copy (exclusive when `overwrite` is false;
a failed exclusive copy writes nothing), silently return on an `EEXIST`
failure under `overwrite: false`, rethrow any other copy failure unwrapped,
and finally apply the originally captured `stat.atime`/`stat.mtime` to the
destination. -/
def cpFileSync (source destination : Option String) (options : Option CpOptionsArg)
    (w : SyncWorld) : List Effect × Except JsError Unit :=
  if isFalsy source || isFalsy destination then
    ([], .error (.cpError (CpFileError.plain "`source` and `destination` required")))
  else
    let s := source.getD ""
    let d := destination.getD ""
    let o := normalizeOptions options
    match w.lstatResult with
    | .error e => ([Effect.lstat s], .error (.fsError e))
    | .ok stat =>
        if stat.isDirectory then
          ([Effect.lstat s], .error (.cpError (eisdirError s)))
        else
          match (if stat.isSymbolicLink && o.followSymlinks then
                   match w.readlinkResult with
                   | .error e => Except.error e
                   | .ok target => Except.ok ([Effect.readlink s], target)
                 else Except.ok ([], s) :
                 Except FsError (List Effect × String)) with
          | .error e =>
              ([Effect.lstat s, Effect.readlink s], .error (.fsError e))
          | .ok (rEffects, src) =>
              let t0 := Effect.lstat s :: rEffects
              match w.makeDirResult with
              | some e =>
                  (t0 ++ [Effect.makeDir (dirname d)], .error (.fsError e))
              | none =>
                  let t1 := t0 ++ [Effect.makeDir (dirname d),
                    Effect.copyFile src d (!o.overwrite) w.copyFileResult]
                  match w.copyFileResult with
                  | some e =>
                      if !o.overwrite && e.code == "EEXIST" then
                        (t1, .ok ())
                      else
                        (t1, .error (.fsError e))
                  | none =>
                      match w.utimesResult with
                      | some e =>
                          (t1 ++ [Effect.utimes d stat.atime stat.mtime],
                            .error (.fsError e))
                      | none =>
                          (t1 ++ [Effect.utimes d stat.atime stat.mtime], .ok ())

/-- The metadata-preservation step of the asynchronous engine was reached:
the second, metadata-step `lstat` of the source appears in the trace. -/
def metadataAttempted (source : String) (t : List Effect) : Prop :=
  Effect.relstat source ∈ t

instance (source : String) (t : List Effect) : Decidable (metadataAttempted source t) := by
  unfold metadataAttempted; infer_instance

/-- An effect that changes the destination file itself (its content,
timestamps or mode): a successful byte copy to it, an open of a write stream
on it, or a `utimes`/`chmod` on it.  A failed exclusive-create `copyFile`
attempt writes nothing. -/
def writesDestFile (d : String) : Effect → Bool
  | .copyFile _ dst _ result => dst == d && result == none
  | .openWrite dst _ => dst == d
  | .utimes dst _ _ => dst == d
  | .chmod dst _ => dst == d
  | _ => false

end CpFile

namespace CpFile

/-! ## Concrete fixtures -/

/-- Default resolved options (`normalizeOptions` with no caller object). -/
def cpDefaults : CpOptions := { overwrite := true, followSymlinks := true }

/-- Stat of an ordinary regular file. -/
def statFile : Stat :=
  { isDirectory := false, isSymbolicLink := false, size := 4, mode := 420, atime := 10, mtime := 20 }

/-- Stat of a symbolic link. -/
def statLink : Stat :=
  { isDirectory := false, isSymbolicLink := true, size := 4, mode := 420, atime := 10, mtime := 20 }

/-- Stat of a directory. -/
def statDir : Stat :=
  { isDirectory := true, isSymbolicLink := false, size := 0, mode := 493, atime := 1, mtime := 2 }

/-- "already exists" low-level error. -/
def eexist : FsError := { code := "EEXIST", message := "file already exists" }

/-- "permission denied" low-level error. -/
def eacces : FsError := { code := "EACCES", message := "permission denied" }

/-- "no such file or directory" low-level error. -/
def enoent : FsError := { code := "ENOENT", message := "no such file or directory" }

/-- Async world in which every collaborator succeeds, source a symlink. -/
def okAsyncLinkWorld : AsyncWorld :=
  { lstatResult := .ok statLink, copyFileResult := none, createReadStreamResult := none,
    makeDirResult := none, readEventError := none, writeCloseError := none,
    relstatResult := .ok statLink, utimesResult := none, chmodResult := none }

/-- Async world in which every collaborator succeeds, source a regular file. -/
def okAsyncFileWorld : AsyncWorld :=
  { okAsyncLinkWorld with
    lstatResult := .ok statFile
    relstatResult := .ok statFile }

/-- Sync world in which every collaborator succeeds, source a regular file. -/
def okSyncWorld : SyncWorld :=
  { lstatResult := .ok statFile, readlinkResult := .ok "target", makeDirResult := none,
    copyFileResult := none, utimesResult := none }

/-- The transfer step of the asynchronous engine raises no error: in the
streaming branch every stream-side collaborator succeeded, while in the
symlink-preserving branch the link copy either succeeded or its failure was
absorbed by the `catch` (which rethrows only "EEXIST" under
`overwrite: false`). -/
def transferNoRaise (o : CpOptions) (stat : Stat) (w : AsyncWorld) : Prop :=
  if stat.isSymbolicLink && !o.followSymlinks then
    ∀ e, w.copyFileResult = some e → ¬(o.overwrite = false ∧ e.code = "EEXIST")
  else
    w.createReadStreamResult = none ∧ w.makeDirResult = none ∧
      w.writeCloseError = none ∧ w.readEventError = none

/-! ## Helper lemmas -/

lemma eexist_cond_true_iff (o : CpOptions) (e : FsError) :
    ((!o.overwrite && e.code == "EEXIST") = true) ↔
      (o.overwrite = false ∧ e.code = "EEXIST") := by
  simp [Bool.and_eq_true]

lemma isFalsy_some_eq_false (s : String) (h : s ≠ "") : isFalsy (some s) = false := by
  unfold isFalsy
  rw [Bool.eq_false_iff]
  intro hb
  exact h ((String.isEmpty_iff s).mp hb)

lemma preserveStats_fst_append (s d : String) (w : AsyncWorld) (t : List Effect) :
    ∃ r, (preserveStats s d w t).1 = t ++ r := by
  unfold preserveStats
  cases w.relstatResult with
  | error e => exact ⟨_, rfl⟩
  | ok stats =>
      cases w.utimesResult with
      | some e => exact ⟨_, rfl⟩
      | none =>
          cases w.chmodResult with
          | some e => exact ⟨_, rfl⟩
          | none => exact ⟨_, rfl⟩

lemma readlink_not_mem_preserveStats (s d p : String) (w : AsyncWorld) (t : List Effect)
    (h : Effect.readlink p ∉ t) : Effect.readlink p ∉ (preserveStats s d w t).1 := by
  unfold preserveStats
  cases w.relstatResult with
  | error e => simp [List.mem_append, h]
  | ok stats =>
      cases w.utimesResult with
      | some e => simp [List.mem_append, h]
      | none =>
          cases w.chmodResult with
          | some e => simp [List.mem_append, h]
          | none => simp [List.mem_append, h]

lemma readlink_not_mem_async (s d : String) (o : CpOptions) (w : AsyncWorld) (p : String) :
    Effect.readlink p ∉ (cpFileAsync s d o w).1 := by
  unfold cpFileAsync
  cases hls : w.lstatResult with
  | error e => simp
  | ok stat =>
      dsimp only
      by_cases hb : (stat.isSymbolicLink && !o.followSymlinks) = true
      · rw [if_pos hb]
        cases hcf : w.copyFileResult with
        | none => exact readlink_not_mem_preserveStats _ _ _ _ _ (by simp)
        | some e =>
            dsimp only
            by_cases hc : (!o.overwrite && e.code == "EEXIST") = true
            · rw [if_pos hc]; simp
            · rw [if_neg hc]
              exact readlink_not_mem_preserveStats _ _ _ _ _ (by simp)
      · rw [if_neg hb]
        cases hcrs : w.createReadStreamResult with
        | some e => simp
        | none =>
            cases hmk : w.makeDirResult with
            | some e => simp
            | none =>
                dsimp only
                cases hwc : w.writeCloseError with
                | some e => cases hre : w.readEventError <;> simp
                | none =>
                    cases hre : w.readEventError with
                    | some r => simp
                    | none =>
                        exact readlink_not_mem_preserveStats _ _ _ _ _ (by simp)

end CpFile

namespace CpFile

/-! ## Claims -/

/-- C1 (amended): in the asynchronous symlink-preserving branch (symbolic
link source with `followSymlinks` false), a link-level copy failure with
code "EEXIST" while `overwrite` is false raises a wrapped destination-write
failure naming the destination; a link-copy failure in any other situation
(`overwrite` true, or any other code) is silently absorbed and the run
proceeds to the metadata step instead of raising. -/
theorem c1_link_copy_error_policy (s d : String) (o : CpOptions) (w : AsyncWorld)
    (stat : Stat) (e : FsError) (hstat : w.lstatResult = .ok stat)
    (hlink : stat.isSymbolicLink = true) (hfollow : o.followSymlinks = false)
    (hcopy : w.copyFileResult = some e) :
    (o.overwrite = false ∧ e.code = "EEXIST" →
      cpFileAsync s d o w =
        ([Effect.lstat s, Effect.copyFile s d true (some e)],
          .error (.cpError (CpFileError.wrap
            ("Cannot write to `" ++ d ++ "`: " ++ e.message) e)))) ∧
    (¬(o.overwrite = false ∧ e.code = "EEXIST") →
      cpFileAsync s d o w =
        preserveStats s d w
          [Effect.lstat s, Effect.copyFile s d (!o.overwrite) (some e)]) := by
  constructor
  · rintro ⟨hov, hcode⟩
    simp [cpFileAsync, hstat, hlink, hfollow, hcopy, hov, hcode]
  · intro hother
    have hc : (!o.overwrite && e.code == "EEXIST") = false := by
      rw [Bool.eq_false_iff]
      intro hx
      exact hother ((eexist_cond_true_iff o e).mp hx)
    simp [cpFileAsync, hstat, hlink, hfollow, hcopy, hc]

/-- C1 counterexample: with a symlink source, `followSymlinks: false`,
`overwrite: false`, every collaborator succeeding, and the link-level copy
failing with code "EACCES" (any code other than "EEXIST"), the claim says
the throw branch fires; the code instead absorbs the failure silently, goes
on to the metadata step, and the run resolves successfully. -/
theorem c1_counterexample :
    cpFileAsync "a" "b" { overwrite := false, followSymlinks := false }
      { okAsyncLinkWorld with copyFileResult := some eacces } =
      ([Effect.lstat "a", Effect.copyFile "a" "b" true (some eacces),
        Effect.relstat "a", Effect.utimes "b" 10 20, Effect.chmod "b" 420],
        .ok ()) := by
  rfl

/-- Witness for C1: in the "EEXIST" / `overwrite: false` case the engine
concretely raises the wrapped destination-write failure. -/
theorem c1_witness :
    cpFileAsync "a" "b" { overwrite := false, followSymlinks := false }
      { okAsyncLinkWorld with copyFileResult := some eexist } =
      ([Effect.lstat "a", Effect.copyFile "a" "b" true (some eexist)],
        .error (.cpError (CpFileError.wrap
          ("Cannot write to `" ++ "b" ++ "`: " ++ eexist.message) eexist))) :=
  (c1_link_copy_error_policy "a" "b" { overwrite := false, followSymlinks := false }
    { okAsyncLinkWorld with copyFileResult := some eexist }
    statLink eexist rfl rfl rfl rfl).1 ⟨rfl, rfl⟩

/-- C4 (amended): in the asynchronous path, the metadata step (re-stat of
the source, then timestamps and mode applied to the destination) is
attempted if and only if the transfer step raised no error — in the
streaming branch exactly when the data transfer completed successfully, but
in the link-copy branch also after a silently-absorbed link-copy failure —
and when it is attempted, both the timestamp update and the mode update are
started, and the operation succeeds exactly when neither of them fails. -/
theorem c4_metadata_attempt_policy (s d : String) (o : CpOptions) (w : AsyncWorld)
    (stat stats : Stat) (hstat : w.lstatResult = .ok stat)
    (hre : w.relstatResult = .ok stats) :
    (metadataAttempted s (cpFileAsync s d o w).1 ↔ transferNoRaise o stat w) ∧
    (transferNoRaise o stat w →
      Effect.utimes d stats.atime stats.mtime ∈ (cpFileAsync s d o w).1 ∧
      Effect.chmod d stats.mode ∈ (cpFileAsync s d o w).1 ∧
      ((cpFileAsync s d o w).2 = .ok () ↔
        w.utimesResult = none ∧ w.chmodResult = none)) := by
  by_cases hb : (stat.isSymbolicLink && !o.followSymlinks) = true
  · -- symlink-preserving branch
    cases hcf : w.copyFileResult with
    | none =>
        have hrun : cpFileAsync s d o w =
            preserveStats s d w
              [Effect.lstat s, Effect.copyFile s d (!o.overwrite) none] := by
          simp [cpFileAsync, hstat, hb, hcf]
        have htr : transferNoRaise o stat w := by
          unfold transferNoRaise
          rw [if_pos hb]
          intro e he
          rw [hcf] at he
          cases he
        constructor
        · constructor
          · intro _; exact htr
          · intro _
            unfold metadataAttempted
            rw [hrun]
            unfold preserveStats
            rw [hre]
            cases w.utimesResult <;> cases w.chmodResult <;> simp
        · intro _
          rw [hrun]
          unfold preserveStats
          rw [hre]
          refine ⟨?_, ?_, ?_⟩
          · cases hu : w.utimesResult <;> cases hc : w.chmodResult <;> simp
          · cases hu : w.utimesResult <;> cases hc : w.chmodResult <;> simp
          · cases hu : w.utimesResult <;> cases hc : w.chmodResult <;> simp
    | some e =>
        by_cases hc : (!o.overwrite && e.code == "EEXIST") = true
        · -- the rethrow case: no metadata, and transferNoRaise is false
          have hrun : cpFileAsync s d o w =
              ([Effect.lstat s, Effect.copyFile s d (!o.overwrite) (some e)],
                .error (.cpError (CpFileError.wrap
                  ("Cannot write to `" ++ d ++ "`: " ++ e.message) e))) := by
            simp [cpFileAsync, hstat, hb, hcf, hc]
          have hntr : ¬ transferNoRaise o stat w := by
            unfold transferNoRaise
            rw [if_pos hb]
            intro htr
            exact htr e hcf ((eexist_cond_true_iff o e).mp hc)
          constructor
          · constructor
            · intro hm
              exfalso
              unfold metadataAttempted at hm
              rw [hrun] at hm
              simp at hm
            · intro htr; exact absurd htr hntr
          · intro htr; exact absurd htr hntr
        · -- the silently-absorbed case: metadata is attempted
          have hrun : cpFileAsync s d o w =
              preserveStats s d w
                [Effect.lstat s, Effect.copyFile s d (!o.overwrite) (some e)] := by
            simp only [Bool.not_eq_true] at hc
            simp [cpFileAsync, hstat, hb, hcf, hc]
          have htr : transferNoRaise o stat w := by
            unfold transferNoRaise
            rw [if_pos hb]
            intro e' he'
            rw [hcf] at he'
            cases he'
            intro hand
            exact hc ((eexist_cond_true_iff o e).mpr hand)
          constructor
          · constructor
            · intro _; exact htr
            · intro _
              unfold metadataAttempted
              rw [hrun]
              unfold preserveStats
              rw [hre]
              cases w.utimesResult <;> cases w.chmodResult <;> simp
          · intro _
            rw [hrun]
            unfold preserveStats
            rw [hre]
            refine ⟨?_, ?_, ?_⟩
            · cases hu : w.utimesResult <;> cases hc2 : w.chmodResult <;> simp
            · cases hu : w.utimesResult <;> cases hc2 : w.chmodResult <;> simp
            · cases hu : w.utimesResult <;> cases hc2 : w.chmodResult <;> simp
  · -- streaming branch
    have hb' : (stat.isSymbolicLink && !o.followSymlinks) = false :=
      Bool.eq_false_iff.mpr hb
    have htr_iff : transferNoRaise o stat w ↔
        (w.createReadStreamResult = none ∧ w.makeDirResult = none ∧
         w.writeCloseError = none ∧ w.readEventError = none) := by
      unfold transferNoRaise
      rw [if_neg hb]
    cases hcrs : w.createReadStreamResult with
    | some e =>
        have hrun : cpFileAsync s d o w =
            ([Effect.lstat s, Effect.openRead s], .error (.fsError e)) := by
          simp [cpFileAsync, hstat, hb', hcrs]
        constructor
        · constructor
          · intro hm
            exfalso
            unfold metadataAttempted at hm
            rw [hrun] at hm
            simp at hm
          · intro htr
            rw [htr_iff] at htr
            rw [hcrs] at htr
            exact absurd htr.1 (by simp)
        · intro htr
          rw [htr_iff] at htr
          rw [hcrs] at htr
          exact absurd htr.1 (by simp)
    | none =>
        cases hmk : w.makeDirResult with
        | some e =>
            have hrun : cpFileAsync s d o w =
                ([Effect.lstat s, Effect.openRead s, Effect.makeDir (dirname d)],
                  .error (.fsError e)) := by
              simp [cpFileAsync, hstat, hb', hcrs, hmk]
            constructor
            · constructor
              · intro hm
                exfalso
                unfold metadataAttempted at hm
                rw [hrun] at hm
                simp at hm
              · intro htr
                rw [htr_iff] at htr
                rw [hmk] at htr
                exact absurd htr.2.1 (by simp)
            · intro htr
              rw [htr_iff] at htr
              rw [hmk] at htr
              exact absurd htr.2.1 (by simp)
        | none =>
            cases hwc : w.writeCloseError with
            | some e =>
                have hrun : (cpFileAsync s d o w).1 =
                    [Effect.lstat s, Effect.openRead s, Effect.makeDir (dirname d),
                      Effect.openWrite d (!o.overwrite)] ++
                      (match w.readEventError with
                       | some _ => [Effect.writeEnd]
                       | none => []) ++ [Effect.writeSettle] := by
                  simp [cpFileAsync, hstat, hb', hcrs, hmk, hwc]
                constructor
                · constructor
                  · intro hm
                    exfalso
                    unfold metadataAttempted at hm
                    rw [hrun] at hm
                    cases hre2 : w.readEventError <;> rw [hre2] at hm <;> simp at hm
                  · intro htr
                    rw [htr_iff] at htr
                    rw [hwc] at htr
                    exact absurd htr.2.2.1 (by simp)
                · intro htr
                  rw [htr_iff] at htr
                  rw [hwc] at htr
                  exact absurd htr.2.2.1 (by simp)
            | none =>
                cases hrev : w.readEventError with
                | some r =>
                    have hrun : (cpFileAsync s d o w).1 =
                        [Effect.lstat s, Effect.openRead s, Effect.makeDir (dirname d),
                          Effect.openWrite d (!o.overwrite), Effect.writeEnd,
                          Effect.writeSettle] := by
                      simp [cpFileAsync, hstat, hb', hcrs, hmk, hwc, hrev]
                    constructor
                    · constructor
                      · intro hm
                        exfalso
                        unfold metadataAttempted at hm
                        rw [hrun] at hm
                        simp at hm
                      · intro htr
                        rw [htr_iff] at htr
                        rw [hrev] at htr
                        exact absurd htr.2.2.2 (by simp)
                    · intro htr
                      rw [htr_iff] at htr
                      rw [hrev] at htr
                      exact absurd htr.2.2.2 (by simp)
                | none =>
                    have hrun : cpFileAsync s d o w =
                        preserveStats s d w
                          [Effect.lstat s, Effect.openRead s, Effect.makeDir (dirname d),
                            Effect.openWrite d (!o.overwrite), Effect.writeSettle] := by
                      simp [cpFileAsync, hstat, hb', hcrs, hmk, hwc, hrev]
                    constructor
                    · constructor
                      · intro _
                        rw [htr_iff, hcrs, hmk, hwc, hrev]
                        exact ⟨rfl, rfl, rfl, rfl⟩
                      · intro _
                        unfold metadataAttempted
                        rw [hrun]
                        unfold preserveStats
                        rw [hre]
                        cases w.utimesResult <;> cases w.chmodResult <;> simp
                    · intro _
                      rw [hrun]
                      unfold preserveStats
                      rw [hre]
                      refine ⟨?_, ?_, ?_⟩
                      · cases hu : w.utimesResult <;> cases hc2 : w.chmodResult <;> simp
                      · cases hu : w.utimesResult <;> cases hc2 : w.chmodResult <;> simp
                      · cases hu : w.utimesResult <;> cases hc2 : w.chmodResult <;> simp

/-- C4 counterexample: source a symbolic link, `followSymlinks: false`,
`overwrite: true`, the link copy failing with "ENOENT" — the data transfer
did not complete successfully, yet the code attempts the metadata step. -/
theorem c4_counterexample :
    ({ okAsyncLinkWorld with copyFileResult := some enoent } : AsyncWorld).copyFileResult =
        some enoent ∧
    metadataAttempted "a"
      (cpFileAsync "a" "b" { overwrite := true, followSymlinks := false }
        { okAsyncLinkWorld with copyFileResult := some enoent }).1 :=
  ⟨rfl, by decide⟩

/-- Witness for C4: a fully successful streaming run attempts the metadata
step and resolves. -/
theorem c4_witness :
    metadataAttempted "a" (cpFileAsync "a" "b" cpDefaults okAsyncFileWorld).1 ∧
    (cpFileAsync "a" "b" cpDefaults okAsyncFileWorld).2 = .ok () := by
  have h := c4_metadata_attempt_policy "a" "b" cpDefaults okAsyncFileWorld
    statFile statFile rfl rfl
  have htr : transferNoRaise cpDefaults statFile okAsyncFileWorld := by
    unfold transferNoRaise
    rw [if_neg (by decide)]
    exact ⟨rfl, rfl, rfl, rfl⟩
  exact ⟨h.1.mpr htr, ((h.2 htr).2.2).mpr ⟨rfl, rfl⟩⟩

end CpFile

namespace CpFile

/-- C2: under `overwrite: false` onto an already-existing destination, the
synchronous path silently returns with no error, while the asynchronous
streaming branch opens the write stream in exclusive-create mode and raises
a wrapped destination-write failure that carries the "EEXIST" code — a
classified `CpFileError`, never a generic/unclassified one.  (The existing
destination surfaces as the sync byte copy failing with "EEXIST" and as the
write stream failing with "EEXIST".) -/
theorem c2_exclusivity
    (s d target : String) (a : Option CpOptionsArg) (ws : SyncWorld)
    (stat : Stat) (e : FsError) (hs : s ≠ "") (hd : d ≠ "")
    (hov : (normalizeOptions a).overwrite = false)
    (hstat : ws.lstatResult = .ok stat) (hdir : stat.isDirectory = false)
    (hrl : ws.readlinkResult = .ok target) (hmk : ws.makeDirResult = none)
    (hcp : ws.copyFileResult = some e) (hcode : e.code = "EEXIST")
    (s2 d2 : String) (o2 : CpOptions) (w2 : AsyncWorld) (stat2 : Stat) (e2 : FsError)
    (hov2 : o2.overwrite = false) (hstat2 : w2.lstatResult = .ok stat2)
    (hbr2 : (stat2.isSymbolicLink && !o2.followSymlinks) = false)
    (hrs2 : w2.createReadStreamResult = none) (hmk2 : w2.makeDirResult = none)
    (hwc2 : w2.writeCloseError = some e2) (hcode2 : e2.code = "EEXIST") :
    (cpFileSync (some s) (some d) a ws).2 = .ok () ∧
    Effect.openWrite d2 true ∈ (cpFileAsync s2 d2 o2 w2).1 ∧
    (cpFileAsync s2 d2 o2 w2).2 = .error (.cpError (CpFileError.wrap
      ("Cannot write to `" ++ d2 ++ "`: " ++ e2.message) e2)) ∧
    (CpFileError.wrap ("Cannot write to `" ++ d2 ++ "`: " ++ e2.message) e2).code =
      some "EEXIST" := by
  have hs' := isFalsy_some_eq_false s hs
  have hd' := isFalsy_some_eq_false d hd
  refine ⟨?_, ?_, ?_, ?_⟩
  · rcases Bool.eq_false_or_eq_true
      (stat.isSymbolicLink && (normalizeOptions a).followSymlinks) with hsl | hsl
    · simp [cpFileSync, hs', hd', hstat, hdir, hrl, hmk, hcp, hov, hcode, hsl]
    · simp [cpFileSync, hs', hd', hstat, hdir, hrl, hmk, hcp, hov, hcode, hsl]
  · cases hre2 : w2.readEventError <;>
      simp [cpFileAsync, hstat2, hbr2, hrs2, hmk2, hwc2, hov2, hre2]
  · cases hre2 : w2.readEventError <;>
      simp [cpFileAsync, hstat2, hbr2, hrs2, hmk2, hwc2, hov2, hre2]
  · simp [CpFileError.wrap, hcode2]

/-- Witness for C2: concrete silent sync success and concrete classified
async "EEXIST" failure. -/
theorem c2_witness :
    (cpFileSync (some "s") (some "d")
      (some { overwrite := some false, followSymlinks := none })
      { okSyncWorld with copyFileResult := some eexist }).2 = .ok () ∧
    (cpFileAsync "s" "d" { overwrite := false, followSymlinks := true }
      { okAsyncFileWorld with writeCloseError := some eexist }).2 =
      .error (.cpError (CpFileError.wrap
        ("Cannot write to `" ++ "d" ++ "`: " ++ eexist.message) eexist)) := by
  have h := c2_exclusivity "s" "d" "target"
    (some { overwrite := some false, followSymlinks := none })
    { okSyncWorld with copyFileResult := some eexist }
    statFile eexist (by decide) (by decide) rfl rfl rfl rfl rfl rfl rfl
    "s" "d" { overwrite := false, followSymlinks := true }
    { okAsyncFileWorld with writeCloseError := some eexist }
    statFile eexist rfl rfl rfl rfl rfl rfl rfl
  exact ⟨h.1, h.2.2.1⟩

/-- C3: in the asynchronous streaming branch, a read-side failure is
recorded, the write stream is ended, and the write stream is allowed to
settle (the trace ends with the write-end then the write-settle events, and
nothing is raised before that); if the write side also fails, the wrapped
destination-write failure is raised in preference to the recorded read
failure, and the recorded read failure is raised (wrapped, naming the
source) only when no write failure occurred. -/
theorem c3_read_write_error_priority
    (s d : String) (o : CpOptions) (w : AsyncWorld) (stat : Stat) (e r : FsError)
    (hstat : w.lstatResult = .ok stat)
    (hbr : (stat.isSymbolicLink && !o.followSymlinks) = false)
    (hrs : w.createReadStreamResult = none) (hmk : w.makeDirResult = none) :
    (w.readEventError = some r →
      (cpFileAsync s d o w).1 =
        [Effect.lstat s, Effect.openRead s, Effect.makeDir (dirname d),
          Effect.openWrite d (!o.overwrite), Effect.writeEnd, Effect.writeSettle]) ∧
    (w.writeCloseError = some e →
      (cpFileAsync s d o w).2 = .error (.cpError (CpFileError.wrap
        ("Cannot write to `" ++ d ++ "`: " ++ e.message) e))) ∧
    (w.writeCloseError = none → w.readEventError = some r →
      (cpFileAsync s d o w).2 = .error (.cpError (CpFileError.wrap
        ("Cannot read from `" ++ s ++ "`: " ++ r.message) r))) := by
  refine ⟨?_, ?_, ?_⟩
  · intro hre
    cases hwc : w.writeCloseError <;>
      simp [cpFileAsync, hstat, hbr, hrs, hmk, hre, hwc]
  · intro hwc
    cases hre : w.readEventError <;>
      simp [cpFileAsync, hstat, hbr, hrs, hmk, hre, hwc]
  · intro hwc hre
    simp [cpFileAsync, hstat, hbr, hrs, hmk, hre, hwc]

/-- Witness for C3: with both the read side and the write side failing, the
destination-write failure wins; with only the read side failing, the read
failure is raised. -/
theorem c3_witness :
    (cpFileAsync "s" "d" cpDefaults
      { okAsyncFileWorld with readEventError := some enoent, writeCloseError := some eexist }).2 =
      .error (.cpError (CpFileError.wrap
        ("Cannot write to `" ++ "d" ++ "`: " ++ eexist.message) eexist)) ∧
    (cpFileAsync "s" "d" cpDefaults
      { okAsyncFileWorld with readEventError := some enoent }).2 =
      .error (.cpError (CpFileError.wrap
        ("Cannot read from `" ++ "s" ++ "`: " ++ enoent.message) enoent)) := by
  have h1 := c3_read_write_error_priority "s" "d" cpDefaults
    { okAsyncFileWorld with readEventError := some enoent, writeCloseError := some eexist }
    statFile eexist enoent rfl rfl rfl rfl
  have h2 := c3_read_write_error_priority "s" "d" cpDefaults
    { okAsyncFileWorld with readEventError := some enoent }
    statFile eexist enoent rfl rfl rfl rfl
  exact ⟨h1.2.1 rfl, h2.2.2 rfl rfl⟩

end CpFile

namespace CpFile

/-- C5: whenever the synchronous entry point stats a source that is a
directory, it fails at once with the EISDIR error (code "EISDIR",
errno −21, naming the source), before the destination's parent directory is
created and before anything is written to the destination. -/
theorem c5_sync_directory_rejection
    (s d : String) (a : Option CpOptionsArg) (w : SyncWorld) (stat : Stat)
    (hs : s ≠ "") (hd : d ≠ "")
    (hstat : w.lstatResult = .ok stat) (hdir : stat.isDirectory = true) :
    cpFileSync (some s) (some d) a w =
      ([Effect.lstat s], .error (.cpError (eisdirError s))) ∧
    (eisdirError s).code = some "EISDIR" ∧
    (eisdirError s).errno = some (-21) ∧
    (eisdirError s).source = some s ∧
    (∀ p, Effect.makeDir p ∉ (cpFileSync (some s) (some d) a w).1) ∧
    (∀ eff ∈ (cpFileSync (some s) (some d) a w).1, writesDestFile d eff = false) := by
  have hs' := isFalsy_some_eq_false s hs
  have hd' := isFalsy_some_eq_false d hd
  have hrun : cpFileSync (some s) (some d) a w =
      ([Effect.lstat s], .error (.cpError (eisdirError s))) := by
    simp [cpFileSync, hs', hd', hstat, hdir]
  refine ⟨hrun, rfl, rfl, rfl, ?_, ?_⟩
  · intro p
    rw [hrun]
    simp
  · intro eff heff
    rw [hrun] at heff
    simp at heff
    subst heff
    rfl

/-- Witness for C5: a concrete directory source is rejected by the sync
path with the EISDIR error and an untouched destination. -/
theorem c5_witness :
    cpFileSync (some "dir") (some "d") none
      { okSyncWorld with lstatResult := .ok statDir } =
      ([Effect.lstat "dir"], .error (.cpError (eisdirError "dir"))) :=
  (c5_sync_directory_rejection "dir" "d" none
    { okSyncWorld with lstatResult := .ok statDir } statDir
    (by decide) (by decide) rfl rfl).1

/-- C6: when the source is a symbolic link and `followSymlinks` is true, the
synchronous path reads the link target and copies from that resolved path
instead of the link itself, whereas the asynchronous path never performs a
readlink resolution step. -/
theorem c6_symlink_resolution
    (s d target : String) (a : Option CpOptionsArg) (w : SyncWorld) (stat : Stat)
    (hs : s ≠ "") (hd : d ≠ "")
    (hstat : w.lstatResult = .ok stat) (hdir : stat.isDirectory = false)
    (hlink : stat.isSymbolicLink = true)
    (hfollow : (normalizeOptions a).followSymlinks = true)
    (hrl : w.readlinkResult = .ok target) (hmk : w.makeDirResult = none)
    (s2 d2 : String) (o2 : CpOptions) (w2 : AsyncWorld) (p : String) :
    Effect.readlink s ∈ (cpFileSync (some s) (some d) a w).1 ∧
    Effect.copyFile target d (!(normalizeOptions a).overwrite) w.copyFileResult ∈
      (cpFileSync (some s) (some d) a w).1 ∧
    (∀ src excl res,
      Effect.copyFile src d excl res ∈ (cpFileSync (some s) (some d) a w).1 →
        src = target) ∧
    Effect.readlink p ∉ (cpFileAsync s2 d2 o2 w2).1 := by
  have hs' := isFalsy_some_eq_false s hs
  have hd' := isFalsy_some_eq_false d hd
  have hb : (stat.isSymbolicLink && (normalizeOptions a).followSymlinks) = true := by
    rw [hlink, hfollow]
    rfl
  have hshape : ∃ rest, (cpFileSync (some s) (some d) a w).1 =
      [Effect.lstat s, Effect.readlink s, Effect.makeDir (dirname d),
        Effect.copyFile target d (!(normalizeOptions a).overwrite) w.copyFileResult] ++
        rest ∧
      ∀ src excl res, Effect.copyFile src d excl res ∉ rest := by
    cases hcf : w.copyFileResult with
    | none =>
        cases hu : w.utimesResult with
        | some e =>
            refine ⟨[Effect.utimes d stat.atime stat.mtime], ?_, by simp⟩
            simp [cpFileSync, hs', hd', hstat, hdir, hb, hrl, hmk, hcf, hu]
        | none =>
            refine ⟨[Effect.utimes d stat.atime stat.mtime], ?_, by simp⟩
            simp [cpFileSync, hs', hd', hstat, hdir, hb, hrl, hmk, hcf, hu]
    | some e =>
        rcases Bool.eq_false_or_eq_true
          (!(normalizeOptions a).overwrite && e.code == "EEXIST") with hc | hc
        · refine ⟨[], ?_, by simp⟩
          simp [cpFileSync, hs', hd', hstat, hdir, hb, hrl, hmk, hcf, hc]
        · refine ⟨[], ?_, by simp⟩
          simp [cpFileSync, hs', hd', hstat, hdir, hb, hrl, hmk, hcf, hc]
  obtain ⟨rest, hshape, hnocopy⟩ := hshape
  refine ⟨?_, ?_, ?_, readlink_not_mem_async s2 d2 o2 w2 p⟩
  · rw [hshape]
    simp
  · rw [hshape]
    simp
  · intro src excl res hmem
    rw [hshape] at hmem
    rcases List.mem_append.mp hmem with hmem | hmem
    · simp at hmem
      exact hmem.1
    · exact absurd hmem (hnocopy src excl res)

/-- Witness for C6: the sync path readlinks a concrete symlink source; the
async path's trace never contains a readlink. -/
theorem c6_witness :
    Effect.readlink "s" ∈
      (cpFileSync (some "s") (some "d") none
        { okSyncWorld with lstatResult := .ok statLink }).1 ∧
    Effect.readlink "s" ∉ (cpFileAsync "s" "d" cpDefaults okAsyncFileWorld).1 := by
  have h := c6_symlink_resolution "s" "d" "target" none
    { okSyncWorld with lstatResult := .ok statLink } statLink
    (by decide) (by decide) rfl rfl rfl rfl rfl rfl
    "s" "d" cpDefaults okAsyncFileWorld "s"
  exact ⟨h.1, h.2.2.2⟩

/-- C7: with a missing or empty source or destination path, the asynchronous
entry point returns a rejected pending result (a `promise` value, not a
synchronous throw) and the synchronous entry point raises immediately, both
carrying the configuration error and performing no filesystem effect. -/
theorem c7_missing_paths (sp dp : Option String) (a : Option CpOptionsArg)
    (w : AsyncWorld) (w2 : SyncWorld)
    (h : isFalsy sp = true ∨ isFalsy dp = true) :
    cpFile sp dp a w = .promise ([], .error (.cpError
      (CpFileError.plain "`source` and `destination` required"))) ∧
    cpFileSync sp dp a w2 = ([], .error (.cpError
      (CpFileError.plain "`source` and `destination` required"))) := by
  have hcond : (isFalsy sp || isFalsy dp) = true := by
    rcases h with h | h <;> simp [h]
  constructor
  · unfold cpFile
    rw [if_pos hcond]
  · unfold cpFileSync
    rw [if_pos hcond]

/-- Witness for C7: a missing source (async) and an empty source (sync) are
rejected with the configuration error and an empty effect trace. -/
theorem c7_witness :
    cpFile none (some "d") none okAsyncLinkWorld = .promise ([], .error (.cpError
      (CpFileError.plain "`source` and `destination` required"))) ∧
    cpFileSync (some "") (some "d") none okSyncWorld = ([], .error (.cpError
      (CpFileError.plain "`source` and `destination` required"))) := by
  have h1 := c7_missing_paths none (some "d") none okAsyncLinkWorld okSyncWorld
    (Or.inl rfl)
  have h2 := c7_missing_paths (some "") (some "d") none okAsyncLinkWorld okSyncWorld
    (Or.inl rfl)
  exact ⟨h1.1, h2.2⟩

/-- C8: in the asynchronous streaming branch the source read stream is
opened and awaited before the destination's parent directory is created, so
when opening the source for reading fails, the operation rejects with that
error unwrapped, no parent directory is created, and nothing touches the
destination file; when the open succeeds, the trace continues with the
parent-directory creation right after the read-stream open. -/
theorem c8_read_open_before_makedir
    (s d : String) (o : CpOptions) (w : AsyncWorld) (stat : Stat) (e : FsError)
    (hstat : w.lstatResult = .ok stat)
    (hbr : (stat.isSymbolicLink && !o.followSymlinks) = false)
    (hrs : w.createReadStreamResult = some e)
    (w1 : AsyncWorld) (hstat1 : w1.lstatResult = .ok stat)
    (hrs1 : w1.createReadStreamResult = none) :
    cpFileAsync s d o w = ([Effect.lstat s, Effect.openRead s], .error (.fsError e)) ∧
    (∀ p, Effect.makeDir p ∉ (cpFileAsync s d o w).1) ∧
    (∀ eff ∈ (cpFileAsync s d o w).1, writesDestFile d eff = false) ∧
    (∃ rest, (cpFileAsync s d o w1).1 =
      Effect.lstat s :: Effect.openRead s :: Effect.makeDir (dirname d) :: rest) := by
  have hrun : cpFileAsync s d o w =
      ([Effect.lstat s, Effect.openRead s], .error (.fsError e)) := by
    simp [cpFileAsync, hstat, hbr, hrs]
  refine ⟨hrun, ?_, ?_, ?_⟩
  · intro p
    rw [hrun]
    simp
  · intro eff heff
    rw [hrun] at heff
    simp at heff
    rcases heff with h | h <;> subst h <;> rfl
  · cases hmk : w1.makeDirResult with
    | some e1 =>
        exact ⟨[], by simp [cpFileAsync, hstat1, hbr, hrs1, hmk]⟩
    | none =>
        cases hwc : w1.writeCloseError with
        | some e1 =>
            cases hre : w1.readEventError with
            | some r =>
                refine ⟨[Effect.openWrite d (!o.overwrite), Effect.writeEnd,
                  Effect.writeSettle], ?_⟩
                simp [cpFileAsync, hstat1, hbr, hrs1, hmk, hwc, hre]
            | none =>
                refine ⟨[Effect.openWrite d (!o.overwrite), Effect.writeSettle], ?_⟩
                simp [cpFileAsync, hstat1, hbr, hrs1, hmk, hwc, hre]
        | none =>
            cases hre : w1.readEventError with
            | some r =>
                refine ⟨[Effect.openWrite d (!o.overwrite), Effect.writeEnd,
                  Effect.writeSettle], ?_⟩
                simp [cpFileAsync, hstat1, hbr, hrs1, hmk, hwc, hre]
            | none =>
                obtain ⟨r2, hr2⟩ := preserveStats_fst_append s d w1
                  [Effect.lstat s, Effect.openRead s, Effect.makeDir (dirname d),
                    Effect.openWrite d (!o.overwrite), Effect.writeSettle]
                refine ⟨Effect.openWrite d (!o.overwrite) :: Effect.writeSettle :: r2, ?_⟩
                have hrun1 : cpFileAsync s d o w1 =
                    preserveStats s d w1
                      [Effect.lstat s, Effect.openRead s, Effect.makeDir (dirname d),
                        Effect.openWrite d (!o.overwrite), Effect.writeSettle] := by
                  simp [cpFileAsync, hstat1, hbr, hrs1, hmk, hwc, hre]
                rw [hrun1, hr2]
                simp

/-- Witness for C8: a concrete failed source open rejects with the raw error
after only the stat and the read-open, with no directory creation. -/
theorem c8_witness :
    cpFileAsync "s" "d" cpDefaults
      { okAsyncFileWorld with createReadStreamResult := some enoent } =
      ([Effect.lstat "s", Effect.openRead "s"], .error (.fsError enoent)) :=
  (c8_read_open_before_makedir "s" "d" cpDefaults
    { okAsyncFileWorld with createReadStreamResult := some enoent }
    statFile enoent rfl rfl rfl okAsyncFileWorld rfl rfl).1

end CpFile

namespace CpFile

/-- C9: in the synchronous path's silent-success exclusivity case (the byte
copy fails with "EEXIST" and `overwrite` is false), the call returns
normally before the timestamp-preservation step: no `utimes` is performed on
the destination and no effect of the run changes the destination file's
content, timestamps or mode. -/
theorem c9_silent_success_frame
    (s d target : String) (a : Option CpOptionsArg) (w : SyncWorld)
    (stat : Stat) (e : FsError)
    (hs : s ≠ "") (hd : d ≠ "")
    (hstat : w.lstatResult = .ok stat) (hdir : stat.isDirectory = false)
    (hrl : w.readlinkResult = .ok target) (hmk : w.makeDirResult = none)
    (hov : (normalizeOptions a).overwrite = false)
    (hcp : w.copyFileResult = some e) (hcode : e.code = "EEXIST") :
    (cpFileSync (some s) (some d) a w).2 = .ok () ∧
    (∀ x y, Effect.utimes d x y ∉ (cpFileSync (some s) (some d) a w).1) ∧
    (∀ eff ∈ (cpFileSync (some s) (some d) a w).1, writesDestFile d eff = false) := by
  have hs' := isFalsy_some_eq_false s hs
  have hd' := isFalsy_some_eq_false d hd
  rcases Bool.eq_false_or_eq_true
    (stat.isSymbolicLink && (normalizeOptions a).followSymlinks) with hsl | hsl
  · have hrun : cpFileSync (some s) (some d) a w =
        ([Effect.lstat s, Effect.readlink s, Effect.makeDir (dirname d),
          Effect.copyFile target d true (some e)], .ok ()) := by
      simp [cpFileSync, hs', hd', hstat, hdir, hsl, hrl, hmk, hcp, hov, hcode]
    refine ⟨by rw [hrun], ?_, ?_⟩
    · intro x y
      rw [hrun]
      simp
    · intro eff heff
      rw [hrun] at heff
      simp at heff
      rcases heff with h | h | h | h <;> subst h <;> simp [writesDestFile]
  · have hrun : cpFileSync (some s) (some d) a w =
        ([Effect.lstat s, Effect.makeDir (dirname d),
          Effect.copyFile s d true (some e)], .ok ()) := by
      simp [cpFileSync, hs', hd', hstat, hdir, hsl, hmk, hcp, hov, hcode]
    refine ⟨by rw [hrun], ?_, ?_⟩
    · intro x y
      rw [hrun]
      simp
    · intro eff heff
      rw [hrun] at heff
      simp at heff
      rcases heff with h | h | h <;> subst h <;> simp [writesDestFile]

/-- Witness for C9: a concrete `overwrite: false` copy onto an existing
destination returns normally with no `utimes` effect in its trace. -/
theorem c9_witness :
    (cpFileSync (some "s") (some "d")
      (some { overwrite := some false, followSymlinks := none })
      { okSyncWorld with copyFileResult := some eexist }).2 = .ok () ∧
    Effect.utimes "d" 10 20 ∉
      (cpFileSync (some "s") (some "d")
        (some { overwrite := some false, followSymlinks := none })
        { okSyncWorld with copyFileResult := some eexist }).1 := by
  have h := c9_silent_success_frame "s" "d" "target"
    (some { overwrite := some false, followSymlinks := none })
    { okSyncWorld with copyFileResult := some eexist }
    statFile eexist (by decide) (by decide) rfl rfl rfl rfl rfl rfl rfl
  exact ⟨h.1, h.2.1 10 20⟩

/-- C10: in the synchronous path with `followSymlinks` true on a
symbolic-link source, the timestamps applied to the destination are the
atime/mtime captured by the link-aware stat of the symlink itself (taken
before the source is replaced by the readlink target); the run stats no path
other than the original source, so the target file's timestamps are never
read. -/
theorem c10_symlink_timestamps
    (s d target : String) (a : Option CpOptionsArg) (w : SyncWorld) (stat : Stat)
    (hs : s ≠ "") (hd : d ≠ "")
    (hstat : w.lstatResult = .ok stat) (hdir : stat.isDirectory = false)
    (hlink : stat.isSymbolicLink = true)
    (hfollow : (normalizeOptions a).followSymlinks = true)
    (hrl : w.readlinkResult = .ok target) (hmk : w.makeDirResult = none)
    (hcp : w.copyFileResult = none) :
    Effect.utimes d stat.atime stat.mtime ∈ (cpFileSync (some s) (some d) a w).1 ∧
    (∀ x y, Effect.utimes d x y ∈ (cpFileSync (some s) (some d) a w).1 →
      x = stat.atime ∧ y = stat.mtime) ∧
    (∀ p, Effect.lstat p ∈ (cpFileSync (some s) (some d) a w).1 → p = s) := by
  have hb : (stat.isSymbolicLink && (normalizeOptions a).followSymlinks) = true := by
    rw [hlink, hfollow]
    rfl
  have hrun : (cpFileSync (some s) (some d) a w).1 =
      [Effect.lstat s, Effect.readlink s, Effect.makeDir (dirname d),
        Effect.copyFile target d (!(normalizeOptions a).overwrite) none,
        Effect.utimes d stat.atime stat.mtime] := by
    cases hu : w.utimesResult <;>
      simp [cpFileSync, isFalsy_some_eq_false s hs, isFalsy_some_eq_false d hd,
        hstat, hdir, hb, hrl, hmk, hcp, hu]
  refine ⟨?_, ?_, ?_⟩
  · rw [hrun]
    simp
  · intro x y hmem
    rw [hrun] at hmem
    simp at hmem
    exact hmem
  · intro p hmem
    rw [hrun] at hmem
    simp at hmem
    exact hmem

/-- Witness for C10: copying a concrete symlink with `followSymlinks` true
applies the symlink's own lstat timestamps to the destination. -/
theorem c10_witness :
    Effect.utimes "d" statLink.atime statLink.mtime ∈
      (cpFileSync (some "s") (some "d") none
        { okSyncWorld with lstatResult := .ok statLink }).1 :=
  (c10_symlink_timestamps "s" "d" "target" none
    { okSyncWorld with lstatResult := .ok statLink } statLink
    (by decide) (by decide) rfl rfl rfl rfl rfl rfl rfl).1

end CpFile
